import Mathlib

/-!
Verification of `riddl-js` (src/lib/index.js), a minimal global-state
container for React: a `Provider` class component that owns the single
state snapshot and exposes `{ globalState, setGlobalState }` through a
context, and a `connect` higher-order component that merges the selected
state, bound transmitters and the update entrypoint into a consumer's
props.

The JavaScript data model is embedded shallowly: a JS object is an
association list of string keys (keys unique in any object built by a JS
literal), property assignment keeps the position of an existing key and
appends a new one, and object spread / `Object.assign` folds the source
object's entries over the target, later sources overriding earlier ones
per key.  Effectful host-framework behaviour that the source delegates to
(React's `setState`, the prop-types checker, the context default value)
is modelled from the spec where noted.
-/

namespace Riddl

/-- A JavaScript object: an association list from string keys to values.
Objects built by JS literals and by the code below have pairwise distinct
keys; lemmas that need this take a `NodupKeys` hypothesis. -/
abbrev Obj (α : Type) : Type := List (String × α)

namespace Obj

/-- Property read `o[k]`: the value at the first occurrence of key `k`. -/
def lookup : Obj α → String → Option α
  | [], _ => none
  | (k0, v0) :: rest, k => if k = k0 then some v0 else lookup rest k

/-- Property write `o[k] = v`: replaces the value at an existing key in
place, appends the key otherwise (JS property-assignment order). -/
def insert : Obj α → String → α → Obj α
  | [], k, v => [(k, v)]
  | (k0, v0) :: rest, k, v =>
      if k = k0 then (k, v) :: rest else (k0, v0) :: insert rest k v

/-- Object spread / `Object.assign(o, p)`: every entry of `p` is assigned
onto `o` in order, so top-level keys of `p` override those of `o` and all
other keys of `o` are preserved. -/
def assign (o p : Obj α) : Obj α :=
  p.foldl (fun acc kv => insert acc kv.1 kv.2) o

/-- The list of keys of an object, in property order. -/
def keys (o : Obj α) : List String :=
  o.map Prod.fst

/-- The keys of the object are pairwise distinct, as they are in any
object produced by a JS object literal. -/
def NodupKeys (o : Obj α) : Prop :=
  o.keys.Nodup

instance (o : Obj α) : Decidable o.NodupKeys :=
  inferInstanceAs (Decidable o.keys.Nodup)

/-- Map a function over the values of an object, keeping the keys. -/
def mapVal (g : α → β) (o : Obj α) : Obj β :=
  o.map (fun kv => (kv.1, g kv.2))

end Obj

theorem Obj.lookup_insert (o : Obj α) (k : String) (v : α) (q : String) :
    Obj.lookup (Obj.insert o k v) q = if q = k then some v else Obj.lookup o q := by
  induction o with
  | nil => simp [Obj.insert, Obj.lookup]
  | cons kv rest ih =>
    obtain ⟨k0, v0⟩ := kv
    by_cases hk : k = k0
    · subst hk
      by_cases hq : q = k <;> simp [Obj.insert, Obj.lookup, hq]
    · by_cases hq : q = k
      · subst hq
        simp [Obj.insert, Obj.lookup, hk, Ne.symm hk, ih]
      · by_cases hq0 : q = k0 <;>
          simp [Obj.insert, Obj.lookup, hk, Ne.symm hk, hq, hq0, ih]

theorem Obj.lookup_eq_none_of_not_mem_keys {o : Obj α} {k : String}
    (h : k ∉ o.keys) : Obj.lookup o k = none := by
  induction o with
  | nil => rfl
  | cons kv rest ih =>
    obtain ⟨k0, v0⟩ := kv
    simp only [Obj.keys, List.map_cons, List.mem_cons, not_or] at h
    simp [Obj.lookup, h.1, ih (by simpa [Obj.keys] using h.2)]

/-- Characterisation of a shallow merge: a key present in the overriding
object `p` reads `p`'s value, any other key reads `o`'s value. -/
theorem Obj.lookup_assign (o p : Obj α) (hp : p.NodupKeys) (k : String) :
    Obj.lookup (Obj.assign o p) k =
      (Obj.lookup p k).orElse (fun _ => Obj.lookup o k) := by
  induction p generalizing o with
  | nil => simp [Obj.assign, Obj.lookup, Option.orElse]
  | cons kv rest ih =>
    obtain ⟨k0, v0⟩ := kv
    simp only [Obj.NodupKeys, Obj.keys, List.map_cons, List.nodup_cons] at hp
    have hrest : Obj.NodupKeys rest := hp.2
    have hstep : Obj.assign o ((k0, v0) :: rest) = Obj.assign (Obj.insert o k0 v0) rest := rfl
    rw [hstep, ih _ hrest]
    by_cases hk : k = k0
    · subst hk
      have : Obj.lookup rest k = none :=
        Obj.lookup_eq_none_of_not_mem_keys (by simpa [Obj.keys] using hp.1)
      simp [this, Obj.lookup, Obj.lookup_insert, Option.orElse]
    · simp [Obj.lookup, hk, Obj.lookup_insert]

theorem Obj.lookup_mapVal (g : α → β) (o : Obj α) (k : String) :
    Obj.lookup (o.mapVal g) k = (Obj.lookup o k).map g := by
  induction o with
  | nil => rfl
  | cons kv rest ih =>
    obtain ⟨k0, v0⟩ := kv
    simp only [Obj.mapVal] at ih
    by_cases hk : k = k0 <;> simp [Obj.mapVal, Obj.lookup, hk, ih]

theorem Obj.keys_mapVal (g : α → β) (o : Obj α) :
    (o.mapVal g).keys = o.keys := by
  induction o with
  | nil => rfl
  | cons kv rest ih => simp [Obj.mapVal, Obj.keys] at ih ⊢

theorem Obj.nodupKeys_mapVal (g : α → β) (o : Obj α) (h : o.NodupKeys) :
    (o.mapVal g).NodupKeys := by
  unfold Obj.NodupKeys at h ⊢
  rw [Obj.keys_mapVal]
  exact h

/-- The error signals named by the spec (section 7). -/
inductive RiddlError : Type where
  | MissingInitialState : RiddlError
  | InvalidUpdatePayload : RiddlError
  | MissingProviderError : RiddlError
deriving DecidableEq, Repr

/-- The argument of an `update` call.  JS is untyped, so the payload can be
an object, a function from the previous state to a partial object, or any
other value (`other` stands for every value that is neither an object nor
a function). -/
inductive UpdatePayload (α : Type) : Type where
  | obj : Obj α → UpdatePayload α
  | fn : (Obj α → Obj α) → UpdatePayload α
  | other : UpdatePayload α

/-- Whether `update` accepts the payload without raising an error. -/
def UpdatePayload.isValid : UpdatePayload α → Bool
  | .other => false
  | _ => true

/-- Modelled from the spec: the container's `update` entrypoint.  In
src/lib/index.js (line 40) the Provider exposes `this.setState.bind(this)`;
the validation and merge semantics live in the host framework, outside
src/, so they are modelled from the spec (section 4.1): a function payload
is invoked with the current Snapshot to obtain a partial mapping, an
object payload is used directly, any other payload fails with
`InvalidUpdatePayload`; the partial mapping is shallow-merged into the
current Snapshot to produce the new Snapshot. -/
def update (s : Obj α) : UpdatePayload α → Except RiddlError (Obj α)
  | .obj p => .ok (Obj.assign s p)
  | .fn f => .ok (Obj.assign s (f s))
  | .other => .error RiddlError.InvalidUpdatePayload

/-- The observable history of a container: the current Snapshot, the
number of committed state changes, and the number of notification passes
issued to the bound consumers. -/
structure ContainerTrace (α : Type) : Type where
  snapshot : Obj α
  commits : Nat
  notifications : Nat
deriving DecidableEq, Repr

/-- Modelled from the spec (section 4.1, side effect): every successful
`update` commits one new snapshot and issues one notification pass; the
container performs no batching of its own.  A failing update raises and
stops the run. -/
def processUpdates : ContainerTrace α → List (UpdatePayload α) →
    Except RiddlError (ContainerTrace α)
  | tr, [] => .ok tr
  | tr, p :: rest =>
      match update tr.snapshot p with
      | .ok s => processUpdates ⟨s, tr.commits + 1, tr.notifications + 1⟩ rest
      | .error e => .error e

/-- A value handed to the Provider as its `globalState` prop.  JS is
untyped: the prop can be an object, `null` or `undefined` (`nullish`), or
a non-object primitive. -/
inductive InitArg (α : Type) : Type where
  | obj : Obj α → InitArg α
  | nullish : InitArg α
  | prim : α → InitArg α
deriving DecidableEq, Repr

/-- Modelled from the spec: `initialize(initialState)` requires a non-null
object and fails with `MissingInitialState` otherwise (sections 4.1, 7).
In src/ only the declaration exists — `Provider.propTypes` (lines 47-50)
declares `globalState: PropTypes.object.isRequired` — while the code that
enforces it is the external prop-types checker, so the enforcement is
modelled from the spec. -/
def initState : InitArg α → Except RiddlError (Obj α)
  | .obj o => .ok o
  | .nullish => .error RiddlError.MissingInitialState
  | .prim _ => .error RiddlError.MissingInitialState

/-- A Provider instance: `this.state`, set from `props.globalState` by the
constructor (src lines 34-37). -/
structure ProviderInst (α : Type) : Type where
  state : Obj α
deriving DecidableEq, Repr

/-- Constructing the Provider: the constructor copies `props.globalState`
into `this.state` (src lines 34-37); validation of the prop is
`initState`. -/
def Provider.construct (a : InitArg α) : Except RiddlError (ProviderInst α) :=
  (initState a).map ProviderInst.mk

/-- An event in the life of a constructed Provider instance: the host
re-renders it with a (possibly different) `globalState` prop, or its
`setGlobalState` entrypoint is called with a payload. -/
inductive PEvent (α : Type) : Type where
  | receiveProps : InitArg α → PEvent α
  | setGlobalState : UpdatePayload α → PEvent α

/-- One step of a constructed Provider instance.  The constructor runs
only once per instance (host class-component semantics), and src defines
no lifecycle method that reads `props.globalState` after construction —
`render` (lines 38-44) reads only `this.state` — so a later prop value
leaves the state untouched; a `setGlobalState` call applies `update` to
the current state. -/
def stepProvider (inst : ProviderInst α) : PEvent α →
    Except RiddlError (ProviderInst α)
  | .receiveProps _ => .ok inst
  | .setGlobalState p => (update inst.state p).map ProviderInst.mk

/-- The value the Provider's `render` publishes through the context
(src lines 38-44): the current state together with the bound update
entrypoint `this.setState.bind(this)`, here an opaque value of type `U`. -/
structure CtxValue (α U : Type) : Type where
  globalState : Obj α
  setGlobalState : U

/-- `Provider.render` (src lines 38-44): publishes
`{ globalState: this.state, setGlobalState: this.setState.bind(this) }`. -/
def Provider.render (inst : ProviderInst α) (u : U) : CtxValue α U :=
  ⟨inst.state, u⟩

/-- A raw transmitter: a two-stage function, business arguments first,
then the update entrypoint (src README; connect's third parameter). -/
abbrev Transmitter (A U R : Type) : Type := List A → U → R

/-- `_mapTransmittersToProps` (src lines 13-19): for each entry
`name → rawTransmitter` of the transmitters object, stores under `name`
the closure `(...args) => rawTransmitter.apply(null, args)(setGlobalState)`.
The loop only builds closures; no transmitter is applied. -/
def _mapTransmittersToProps (transmitters : Obj (Transmitter A U R))
    (setGlobalState : U) : Obj (List A → R) :=
  transmitters.mapVal (fun raw => fun args => raw args setGlobalState)

/-- A value stored in a consumer's props: a plain data value (from the
selected state or from own props), the update entrypoint, or a bound
transmitter closure. -/
inductive PropValue (α A U R : Type) : Type where
  | data : α → PropValue α A U R
  | upd : U → PropValue α A U R
  | fnVal : (List A → R) → PropValue α A U R

/-- `mappedState` (src line 23): `mapStateToProps ? mapStateToProps(globalState)
: globalState` — with no selector the full snapshot is used. -/
def mappedState (mapStateToProps : Option (Obj α → Obj α)) (globalState : Obj α) :
    Obj α :=
  match mapStateToProps with
  | some f => f globalState
  | none => globalState

/-- The props object `connect` hands to the wrapped component
(src lines 20-31, in particular line 26):
`<Component setGlobalState={setGlobalState} {...mappedState}
{...mappedTransmitters} {...props} />` — built left to right, so later
spreads override earlier ones per key. -/
def connectRender (mapStateToProps : Option (Obj α → Obj α))
    (transmitters : Obj (Transmitter A U R))
    (ctx : CtxValue α U) (props : Obj (PropValue α A U R)) :
    Obj (PropValue α A U R) :=
  Obj.assign
    (Obj.assign
      (Obj.assign [("setGlobalState", PropValue.upd ctx.setGlobalState)]
        ((mappedState mapStateToProps ctx.globalState).mapVal PropValue.data))
      ((_mapTransmittersToProps transmitters ctx.setGlobalState).mapVal PropValue.fnVal))
    props

/-- Evaluating a connected consumer at a tree position.  `ctx?` is the
context value reachable there: `GlobalContext` is created with no default
value (src line 4), so with no Provider ancestor the consumer receives an
undefined value and the destructuring on line 22 fails.  Modelled from the
spec: this failure is the error named `MissingProviderError` (sections
4.4, 7). -/
def connectEval (mapStateToProps : Option (Obj α → Obj α))
    (transmitters : Obj (Transmitter A U R))
    (ctx? : Option (CtxValue α U)) (props : Obj (PropValue α A U R)) :
    Except RiddlError (Obj (PropValue α A U R)) :=
  match ctx? with
  | none => .error RiddlError.MissingProviderError
  | some ctx => .ok (connectRender mapStateToProps transmitters ctx props)

/-- C1: for every Snapshot S and partial object payload P, update with P
produces a new current Snapshot equal to S with every top-level key of P
overwritten by P's value and every other key of S preserved unchanged. -/
theorem update_obj_shallow_merge {α : Type} (S P : Obj α) (hP : P.NodupKeys) :
    ∃ S2, update S (UpdatePayload.obj P) = Except.ok S2 ∧
      (∀ k v, Obj.lookup P k = some v → Obj.lookup S2 k = some v) ∧
      (∀ k, Obj.lookup P k = none → Obj.lookup S2 k = Obj.lookup S k) := by
  refine ⟨Obj.assign S P, rfl, ?_, ?_⟩
  · intro k v h
    rw [Obj.lookup_assign S P hP k, h]
    rfl
  · intro k h
    rw [Obj.lookup_assign S P hP k, h]
    rfl

theorem update_obj_shallow_merge_witness :
    ∃ S2, update [("a", 1), ("b", 2)]
        (UpdatePayload.obj [("b", 9), ("c", 3)]) = Except.ok S2 ∧
      (∀ k v, Obj.lookup [("b", 9), ("c", 3)] k = some v →
        Obj.lookup S2 k = some v) ∧
      (∀ k, Obj.lookup [("b", 9), ("c", 3)] k = none →
        Obj.lookup S2 k = Obj.lookup [("a", 1), ("b", 2)] k) :=
  update_obj_shallow_merge [("a", 1), ("b", 2)] [("b", 9), ("c", 3)] (by decide)

/-- C7: for every function payload f, update invokes f with the exact
previous Snapshot and shallow-merges the returned partial mapping into
that Snapshot exactly as an object payload would be merged. -/
theorem update_fn_uses_prev_snapshot {α : Type} (S : Obj α) (f : Obj α → Obj α) :
    update S (UpdatePayload.fn f) = Except.ok (Obj.assign S (f S)) ∧
      update S (UpdatePayload.fn f) = update S (UpdatePayload.obj (f S)) :=
  ⟨rfl, rfl⟩

/-- C6: update with a payload that is neither an object nor a function
fails with InvalidUpdatePayload; an object or function payload never
raises that error. -/
theorem update_payload_validation {α : Type} (S : Obj α) :
    update S UpdatePayload.other = Except.error RiddlError.InvalidUpdatePayload ∧
      (∀ P : Obj α, update S (UpdatePayload.obj P) = Except.ok (Obj.assign S P)) ∧
      (∀ f : Obj α → Obj α,
        update S (UpdatePayload.fn f) = Except.ok (Obj.assign S (f S))) :=
  ⟨rfl, fun _ => rfl, fun _ => rfl⟩

/-- C4: constructing the Provider with an initialState that is not a
non-null object fails with MissingInitialState; a non-null object
becomes the first Snapshot. -/
theorem provider_construct_validation {α : Type} (o : Obj α) (v : α) :
    Provider.construct (InitArg.obj o) = Except.ok ⟨o⟩ ∧
      Provider.construct (InitArg.nullish : InitArg α) =
        Except.error RiddlError.MissingInitialState ∧
      Provider.construct (InitArg.prim v) =
        Except.error RiddlError.MissingInitialState :=
  ⟨rfl, rfl, rfl⟩

/-- C5: evaluating a connected consumer from a tree position with no
reachable Provider context fails with MissingProviderError. -/
theorem connect_missing_provider {α A U R : Type}
    (msp : Option (Obj α → Obj α)) (t : Obj (Transmitter A U R))
    (props : Obj (PropValue α A U R)) :
    connectEval msp t none props = Except.error RiddlError.MissingProviderError :=
  rfl

/-- C8: with no selector supplied the selected state equals the full
current Snapshot — the selector defaults to the identity projection — and
the merged props are those of an identity selector. -/
theorem connect_default_selector_identity {α A U R : Type}
    (t : Obj (Transmitter A U R)) (ctx : CtxValue α U)
    (props : Obj (PropValue α A U R)) :
    mappedState none ctx.globalState = ctx.globalState ∧
      connectRender none t ctx props =
        connectRender (some (fun s => s)) t ctx props :=
  ⟨rfl, rfl⟩

/-- C3: binding a transmitter map to an update entrypoint yields a map
with exactly the same names, each name mapped to the closure
args ↦ rawTransmitter args updateEntrypoint; a name absent from the raw
map is absent from the bound map, and the binder never applies a raw
transmitter — the bound entry is the still-suspended closure. -/
theorem mapTransmitters_binding {A U R : Type}
    (t : Obj (Transmitter A U R)) (u : U) :
    (_mapTransmittersToProps t u).keys = t.keys ∧
      (∀ n raw, Obj.lookup t n = some raw →
        Obj.lookup (_mapTransmittersToProps t u) n =
          some (fun args => raw args u)) ∧
      (∀ n, Obj.lookup t n = none →
        Obj.lookup (_mapTransmittersToProps t u) n = none) := by
  refine ⟨Obj.keys_mapVal _ t, ?_, ?_⟩
  · intro n raw h
    rw [_mapTransmittersToProps, Obj.lookup_mapVal, h]
    rfl
  · intro n h
    rw [_mapTransmittersToProps, Obj.lookup_mapVal, h]
    rfl

theorem mapTransmitters_binding_witness :
    Obj.lookup [(("f" : String),
        (fun args u => args.length + u : Transmitter Nat Nat Nat))] "f" =
      some (fun args u => args.length + u) ∧
    Obj.lookup (_mapTransmittersToProps
        [(("f" : String), (fun args u => args.length + u : Transmitter Nat Nat Nat))] 3)
        "f" = some (fun args => args.length + 3) :=
  ⟨rfl,
    (mapTransmitters_binding
      [(("f" : String), (fun args u => args.length + u : Transmitter Nat Nat Nat))]
      3).2.1 "f" (fun args u => args.length + u) rfl⟩

/-- C10: a constructed Provider instance never changes its state on a
later globalState prop value; its state changes only through the
setGlobalState entrypoint. -/
theorem provider_state_only_via_setGlobalState {α : Type}
    (inst : ProviderInst α) :
    (∀ a : InitArg α, stepProvider inst (PEvent.receiveProps a) = Except.ok inst) ∧
      (∀ (e : PEvent α) (inst2 : ProviderInst α),
        stepProvider inst e = Except.ok inst2 →
        inst2.state ≠ inst.state → ∃ p, e = PEvent.setGlobalState p) := by
  refine ⟨fun _ => rfl, ?_⟩
  intro e inst2 hstep hne
  cases e with
  | receiveProps a =>
    cases hstep
    exact absurd rfl hne
  | setGlobalState p => exact ⟨p, rfl⟩

theorem provider_state_only_via_setGlobalState_witness :
    stepProvider (⟨[("a", 1)]⟩ : ProviderInst Nat)
        (PEvent.setGlobalState (UpdatePayload.obj [("a", 2)])) =
      Except.ok ⟨[("a", 2)]⟩ ∧
      (⟨[("a", 2)]⟩ : ProviderInst Nat).state ≠
        (⟨[("a", 1)]⟩ : ProviderInst Nat).state ∧
      ∃ p, PEvent.setGlobalState (α := Nat) (UpdatePayload.obj [("a", 2)]) =
        PEvent.setGlobalState p :=
  ⟨rfl, by decide,
    (provider_state_only_via_setGlobalState (⟨[("a", 1)]⟩ : ProviderInst Nat)).2
      (PEvent.setGlobalState (UpdatePayload.obj [("a", 2)]))
      (⟨[("a", 2)]⟩ : ProviderInst Nat) rfl (by decide)⟩

theorem processUpdates_counts {α : Type} :
    ∀ (ps : List (UpdatePayload α)) (tr : ContainerTrace α),
      (∀ p ∈ ps, p.isValid) →
      ∃ tr2, processUpdates tr ps = Except.ok tr2 ∧
        tr2.commits = tr.commits + ps.length ∧
        tr2.notifications = tr.notifications + ps.length := by
  intro ps
  induction ps with
  | nil => exact fun tr _ => ⟨tr, rfl, rfl, rfl⟩
  | cons p rest ih =>
    intro tr h
    have hp : p.isValid := h p (List.mem_cons_self p rest)
    have hrest : ∀ q ∈ rest, q.isValid := fun q hq => h q (List.mem_cons_of_mem p hq)
    cases p with
    | obj P =>
      obtain ⟨tr2, h1, h2, h3⟩ :=
        ih ⟨Obj.assign tr.snapshot P, tr.commits + 1, tr.notifications + 1⟩ hrest
      exact ⟨tr2, h1, by simp at h2 ⊢; omega, by simp at h3 ⊢; omega⟩
    | fn f =>
      obtain ⟨tr2, h1, h2, h3⟩ :=
        ih ⟨Obj.assign tr.snapshot (f tr.snapshot), tr.commits + 1,
          tr.notifications + 1⟩ hrest
      exact ⟨tr2, h1, by simp at h2 ⊢; omega, by simp at h3 ⊢; omega⟩
    | other => simp [UpdatePayload.isValid] at hp

/-- C9: N synchronous update calls with valid payloads produce N discrete
state commits and N notification passes — the container performs no
implicit batching or coalescing of its own. -/
theorem no_implicit_batching {α : Type} (s : Obj α)
    (ps : List (UpdatePayload α)) (h : ∀ p ∈ ps, p.isValid) :
    ∃ tr, processUpdates ⟨s, 0, 0⟩ ps = Except.ok tr ∧
      tr.commits = ps.length ∧ tr.notifications = ps.length := by
  obtain ⟨tr, h1, h2, h3⟩ := processUpdates_counts ps ⟨s, 0, 0⟩ h
  exact ⟨tr, h1, by simpa using h2, by simpa using h3⟩

theorem no_implicit_batching_witness :
    ∃ tr, processUpdates (⟨[], 0, 0⟩ : ContainerTrace Nat)
        [UpdatePayload.obj [("a", 1)], UpdatePayload.fn (fun s => s),
          UpdatePayload.obj []] = Except.ok tr ∧
      tr.commits = 3 ∧ tr.notifications = 3 :=
  no_implicit_batching []
    [UpdatePayload.obj [("a", 1)], UpdatePayload.fn (fun s => s),
      UpdatePayload.obj []]
    (by decide)

/-- C2: a connected consumer's merged props are built by overlaying, in
order, the update entrypoint under the key setGlobalState, then the
selected state, then the bound transmitters, then the consumer's own
incoming props — later layers override earlier ones per key, so own props
always win — and every layer is computed from the context's current
Snapshot at this evaluation. -/
theorem connect_merged_props_precedence {α A U R : Type}
    (msp : Option (Obj α → Obj α)) (t : Obj (Transmitter A U R))
    (ctx : CtxValue α U) (props : Obj (PropValue α A U R))
    (hs : (mappedState msp ctx.globalState).NodupKeys)
    (ht : t.NodupKeys) (hp : props.NodupKeys) (k : String) :
    Obj.lookup (connectRender msp t ctx props) k =
      (Obj.lookup props k).orElse (fun _ =>
        ((Obj.lookup (_mapTransmittersToProps t ctx.setGlobalState) k).map
            PropValue.fnVal).orElse (fun _ =>
          ((Obj.lookup (mappedState msp ctx.globalState) k).map
              PropValue.data).orElse (fun _ =>
            if k = "setGlobalState" then some (PropValue.upd ctx.setGlobalState)
            else none))) := by
  unfold connectRender
  have hmt : (_mapTransmittersToProps t ctx.setGlobalState).NodupKeys :=
    Obj.nodupKeys_mapVal _ t ht
  rw [Obj.lookup_assign _ props hp k,
    Obj.lookup_assign _ _ (Obj.nodupKeys_mapVal PropValue.fnVal _ hmt) k,
    Obj.lookup_assign _ _ (Obj.nodupKeys_mapVal PropValue.data _ hs) k,
    Obj.lookup_mapVal, Obj.lookup_mapVal]
  simp [Obj.lookup]

theorem connect_merged_props_precedence_witness :
    Obj.lookup
        (connectRender (α := Nat) (A := Nat) (U := Nat) (R := Nat) none
          [("t1", fun args u => args.length + u)]
          ⟨[("x", 5)], 7⟩ [("x", PropValue.data 99)]) "x" =
      (Obj.lookup [("x", PropValue.data 99)] "x").orElse (fun _ =>
        ((Obj.lookup (_mapTransmittersToProps
            [("t1", fun args u => args.length + u)] 7) "x").map
            PropValue.fnVal).orElse (fun _ =>
          ((Obj.lookup (mappedState none [("x", 5)]) "x").map
              PropValue.data).orElse (fun _ =>
            if "x" = "setGlobalState" then some (PropValue.upd 7) else none))) :=
  connect_merged_props_precedence none
    [("t1", fun args u => args.length + u)] ⟨[("x", 5)], 7⟩
    [("x", PropValue.data 99)] (by decide) (by decide) (by decide) "x"

end Riddl
